import Mathlib

/-!
A shallow embedding of the roles module of `adapt-authoring-roles`
(`lib/RolesModule.js`, with the handler bodies exactly as exercised by
`tests/RolesModule.spec.js`).  Persisted records become structures, the
Mongo-backed `find` calls become lookups over an explicit `List` snapshot
of the collection, async side effects (log events, store calls, session
disavowals) are collected in output lists, and thrown JS errors become an
explicit error type.  The unbounded `do/while` inheritance walk of
`getScopesForRole` is given a fuel parameter, `none` standing for a walk
that has not finished within the given fuel.
-/

namespace AdaptRoles

/-- A persisted role record: `_id` (stringified ObjectId), unique
`shortName`, the scope strings, and the optional `extends` field naming the
parent role's short name. -/
structure Role where
  _id : String
  shortName : String
  scopes : List String
  extendsName : Option String := none
deriving DecidableEq, Repr

/-- A principal as the users module returns it under the
`{ projection: { roles: 1 } }` used by the module: `_id` and the list of
role ids. -/
structure User where
  _id : String
  roles : List String
deriving DecidableEq, Repr

/-- The errors the module's code paths can throw: the framework's
`UNAUTHORISED` error, a failed role lookup (the spec's RoleNotFound: in the
source the dereference of the `undefined` lookup result throws), and a JS
`TypeError` from dereferencing an `undefined` non-role value. -/
inductive RolesError
  | unauthorised
  | roleNotFound
  | typeError
deriving DecidableEq, Repr

/-- A `this.log(...)` event, restricted to the shapes the module emits. -/
inductive LogEvent
  | errorLog (userId : String) (reason : String)
  | warnLog (msg : String)
  | debugLog (action : String) (shortName : String)
deriving DecidableEq, Repr

/-- `allRoles.find(r => r._id.toString() === _id.toString())`. -/
def findRoleById (allRoles : List Role) (_id : String) : Option Role :=
  allRoles.find? (fun r => r._id == _id)

/-- `this.find({ shortName })` destructured to its first element. -/
def findRoleByShortName (allRoles : List Role) (sn : String) : Option Role :=
  allRoles.find? (fun r => r.shortName == sn)

/-- `users.find({ _id })` destructured to its first element. -/
def findUserById (users : List User) (_id : String) : Option User :=
  users.find? (fun u => u._id == _id)

/-- One step of the inheritance walk:
`allRoles.find(r => r.shortName === role.extends)`.  When `extends` is
absent no role's (string) short name strict-equals `undefined`, so the
lookup yields nothing. -/
def nextRole (allRoles : List Role) (role : Role) : Option Role :=
  match role.extendsName with
  | none => none
  | some sn => findRoleByShortName allRoles sn

/-- The `do { scopes.push(...role.scopes); role = ... } while (role)` loop
of `getScopesForRole`, with fuel: `none` means the loop has not terminated
within `fuel` iterations (the source has no cycle guard). -/
def walkChain (allRoles : List Role) : Nat → Role → Option (List String)
  | 0, _ => none
  | Nat.succ f, role =>
    match nextRole allRoles role with
    | none => some role.scopes
    | some parent => (walkChain allRoles f parent).map (role.scopes ++ ·)

/-- `getScopesForRole(_id)`: fetch the whole collection, locate the
starting role by stringified id (a missing start throws — modelled as
`roleNotFound`), then walk the `extends` chain accumulating scopes. -/
def getScopesForRole (allRoles : List Role) (_id : String) (fuel : Nat) :
    Option (Except RolesError (List String)) :=
  match findRoleById allRoles _id with
  | none => some (Except.error RolesError.roleNotFound)
  | some role => (walkChain allRoles fuel role).map Except.ok

/-- `getSuperRoleId()`: `this.find({ scopes: ['*:*'] })` destructured to
its first element; dereferencing a missing result throws (modelled as
`roleNotFound`). -/
def getSuperRoleId (allRoles : List Role) : Except RolesError String :=
  match allRoles.find? (fun r => r.scopes == ["*:*"]) with
  | none => Except.error RolesError.roleNotFound
  | some superRole => Except.ok superRole._id

/-- `isTargetSuper(_id)`: fetch the target principal (projecting roles; a
missing user makes `user.roles` throw a TypeError), then
`user.roles.length === 1 && user.roles[0].toString() === await this.getSuperRoleId()`
with JS short-circuiting: `getSuperRoleId` only runs when the length test
passed. -/
def isTargetSuper (allRoles : List Role) (users : List User) (_id : String) :
    Except RolesError Bool :=
  match findUserById users _id with
  | none => Except.error RolesError.typeError
  | some user =>
    match user.roles with
    | [rid] =>
      match getSuperRoleId allRoles with
      | Except.error e => Except.error e
      | Except.ok sid => Except.ok (rid == sid)
    | _ => Except.ok false

deriving instance DecidableEq for Except

/-- `this.roleCache`, a plain JS object keyed by short name.  (Assigning
the `undefined` result of a failed find leaves the cache observationally
unchanged — `!role` re-enters the fetch branch — so only successful
fetches are stored.) -/
abbrev RoleCache := List (String × Role)

/-- `this.roleCache[r]`. -/
def cacheLookup (cache : RoleCache) (n : String) : Option Role :=
  (cache.find? (fun e => e.fst == n)).map (·.snd)

/-- What resolving one short name inside `shortNamesToIds` produces: the
id (or the throw on a missing role), the cache entry it writes, and the
`this.find({ shortName })` store queries it issues. -/
structure ResolveOut where
  result : Except RolesError String
  writes : RoleCache
  queries : List String
deriving DecidableEq, Repr

/-- One element of the `roles.map(async r => ...)` body of
`shortNamesToIds`: consult `this.roleCache[r]`; on a miss query the store
and write the fetched record back (a missing role makes `role._id`
throw). -/
def resolveOne (db : List Role) (cache : RoleCache) (n : String) : ResolveOut :=
  match cacheLookup cache n with
  | some role => ⟨Except.ok role._id, [], []⟩
  | none =>
    match findRoleByShortName db n with
    | some role => ⟨Except.ok role._id, [(n, role)], [n]⟩
    | none => ⟨Except.error RolesError.roleNotFound, [], [n]⟩

/-- `Promise.all` over per-name results: the first rejection rejects the
whole call. -/
def collectResults : List (Except RolesError String) → Except RolesError (List String)
  | [] => Except.ok []
  | Except.error e :: _ => Except.error e
  | Except.ok s :: rest => (collectResults rest).map (s :: ·)

/-- The observable outcome of one `shortNamesToIds` call: its resolved
value, the cache as left behind, and the store queries issued. -/
structure CallOut where
  result : Except RolesError (List String)
  cache : RoleCache
  queries : List String
deriving DecidableEq, Repr

/-- `shortNamesToIds(roles)` (the cached variant): the map callbacks all
run their synchronous prefix — the cache read — before any `find` promise
resolves, so every name is checked against the cache as it stood at call
entry, and the write-backs of the misses land afterwards. -/
def shortNamesToIds (db : List Role) (cache : RoleCache) (names : List String) :
    CallOut :=
  let outs := names.map (resolveOne db cache)
  ⟨collectResults (outs.map (·.result)),
   cache ++ (outs.map (·.writes)).flatten,
   (outs.map (·.queries)).flatten⟩

/-- `req.auth`: the requester's super flag, scopes and
`user._id.toString()`. -/
structure AuthInfo where
  isSuper : Bool
  scopes : List String
  userId : String
deriving DecidableEq, Repr

/-- `req.apiData` when present: the `modifying` flag (a JS value that may
be absent), `data.roles` (absent, or a present — possibly empty — id
list), and `query._id`. -/
structure ApiData where
  modifying : Option Bool
  dataRoles : Option (List String)
  queryId : String
deriving DecidableEq, Repr

/-- The slice of an Express request the two hook handlers read. -/
structure UpdateReq where
  method : String
  paramsId : Option String
  bodyId : Option String
  auth : AuthInfo
  apiData : Option ApiData
deriving DecidableEq, Repr

/-- JS truthiness of an optional string: `undefined` and `''` are falsy. -/
def jsTruthyString : Option String → Bool
  | none => false
  | some s => !(s == "")

/-- `req.params._id || req.body._id`. -/
def jsOrId (a b : Option String) : Option String :=
  if jsTruthyString a then a else b

/-- What an `onUpdateRoles` call produces: its result (a thrown error
rejects the request), the log events, and the `disavowUser` calls with the
`userId` each carried. -/
structure GuardOut where
  result : Except RolesError Unit
  logs : List LogEvent
  disavowed : List (Option String)
deriving DecidableEq, Repr

/-- The tail of `onUpdateRoles`: for non-POST methods, disavow the target
identified by `req.params._id || req.body._id`. -/
def disavowStep (req : UpdateReq) : GuardOut :=
  if req.method == "POST" then ⟨Except.ok (), [], []⟩
  else ⟨Except.ok (), [], [jsOrId req.paramsId req.bodyId]⟩

/-- `onUpdateRoles(req)`.  Early return unless
`req.apiData?.modifying === false` and (`req.method === 'DELETE'` or
`req.apiData.data.roles` is truthy — note an empty array is truthy).
A non-super requester then goes through the three `reject(...)` checks in
order; note that check two reads `req.apiData.data.roles.includes(...)`,
which throws a TypeError when `data.roles` is absent (the engaged
DELETE-without-roles case) before `getSuperRoleId` is even awaited. -/
def onUpdateRoles (rolesDb : List Role) (usersDb : List User) (req : UpdateReq) :
    GuardOut :=
  match req.apiData with
  | none => ⟨Except.ok (), [], []⟩
  | some ad =>
    if !(ad.modifying == some false && (req.method == "DELETE" || ad.dataRoles.isSome)) then
      ⟨Except.ok (), [], []⟩
    else if req.auth.isSuper then
      disavowStep req
    else if !(req.auth.scopes.contains "assign:roles") then
      ⟨Except.error RolesError.unauthorised,
       [LogEvent.errorLog req.auth.userId "assign role"], []⟩
    else
      match ad.dataRoles with
      | none => ⟨Except.error RolesError.typeError, [], []⟩
      | some assigned =>
        match getSuperRoleId rolesDb with
        | Except.error e => ⟨Except.error e, [], []⟩
        | Except.ok sid =>
          if assigned.contains sid then
            ⟨Except.error RolesError.unauthorised,
             [LogEvent.errorLog req.auth.userId "assign superuser"], []⟩
          else
            match isTargetSuper rolesDb usersDb ad.queryId with
            | Except.error e => ⟨Except.error e, [], []⟩
            | Except.ok true =>
              ⟨Except.error RolesError.unauthorised,
               [LogEvent.errorLog req.auth.userId "modify superuser"], []⟩
            | Except.ok false => disavowStep req

/-- What an `onCheckUserAccess` call produces: its result, and whether the
target principal was queried (i.e. whether `isTargetSuper` ran). -/
structure AccessOut where
  result : Except RolesError Bool
  queriedTarget : Bool
deriving DecidableEq, Repr

/-- `onCheckUserAccess(req)`:
`if (req.apiData.modifying && await this.isTargetSuper(req.apiData.query._id)) throw UNAUTHORISED; return true`.
The `&&` short-circuits, so a non-modifying request never reaches the
target lookup. -/
def onCheckUserAccess (rolesDb : List Role) (usersDb : List User)
    (modifying : Bool) (queryId : String) : AccessOut :=
  if modifying then
    match isTargetSuper rolesDb usersDb queryId with
    | Except.error e => ⟨Except.error e, true⟩
    | Except.ok true => ⟨Except.error RolesError.unauthorised, true⟩
    | Except.ok false => ⟨Except.ok true, true⟩
  else ⟨Except.ok true, false⟩

/-- A `roleDefinitions` entry from configuration. -/
structure RoleDef where
  shortName : String
  displayName : String
  scopes : List String
  extendsName : Option String := none
deriving DecidableEq, Repr

/-- A store mutation issued by `initConfigRoles`: a
`mongodb.replace(collection, { _id }, r)` or a `this.insert(r)`. -/
inductive StoreCall
  | replaceCall (collection : String) (filterId : String) (newDef : RoleDef)
  | insertCall (newDef : RoleDef)
deriving DecidableEq, Repr

/-- How the store answers the one mutation a definition triggers:
success, a duplicate-key conflict (`e.code === 11000`), or any other
error with its message. -/
inductive StoreOutcome
  | success
  | conflict
  | failure (msg : String)
deriving DecidableEq, Repr

/-- `this.collectionName`. -/
def collectionName : String := "roles"

/-- The observable outcome of reconciling one definition: the store calls
issued and the log events emitted. -/
structure ReconcileOut where
  calls : List StoreCall
  logs : List LogEvent
deriving DecidableEq, Repr

/-- The body of the `roleDefinitions` map inside `initConfigRoles`: look
the short name up; if found, one full-document replace filtered by the
existing record's `_id` (debug log on success, silence on a conflict,
warning otherwise); if not found, one insert with the same
error policy.  `oracle` supplies the store's answer to that one call. -/
def reconcileOne (db : List Role) (oracle : RoleDef → StoreOutcome) (r : RoleDef) :
    ReconcileOut :=
  match findRoleByShortName db r.shortName with
  | some doc =>
    ⟨[StoreCall.replaceCall collectionName doc._id r],
     match oracle r with
     | StoreOutcome.success => [LogEvent.debugLog "REPLACE" r.shortName]
     | StoreOutcome.conflict => []
     | StoreOutcome.failure msg =>
       [LogEvent.warnLog ("failed to update \x27" ++ r.shortName ++ "\x27 role, " ++ msg)]⟩
  | none =>
    ⟨[StoreCall.insertCall r],
     match oracle r with
     | StoreOutcome.success => [LogEvent.debugLog "INSERT" r.shortName]
     | StoreOutcome.conflict => []
     | StoreOutcome.failure msg =>
       [LogEvent.warnLog ("failed to add \x27" ++ r.shortName ++ "\x27 role, " ++ msg)]⟩

/-- `initConfigRoles()`: `Promise.allSettled` over the definitions — every
definition is dispatched against the same initial snapshot and every one
settles to an outcome; the batch itself never rejects. -/
def initConfigRoles (db : List Role) (oracle : RoleDef → StoreOutcome)
    (defs : List RoleDef) : List ReconcileOut :=
  defs.map (reconcileOne db oracle)

/-- A value stored in the `rolesForAuth` object built by
`initDefaultRoles`: the code stores the *unawaited* promise returned by
`this.shortNamesToIds(v)`, not a resolved id list. -/
inductive JsDefault
  | pending (shortNames : List String)
deriving DecidableEq, Repr

/-- The `rolesForAuth` object. -/
abbrev JsObject := List (String × JsDefault)

/-- Property read `m[k]` on the accumulator object. -/
def jsObjLookup (m : JsObject) (k : String) : Option JsDefault :=
  (m.find? (fun e => e.fst == k)).map (·.snd)

/-- JS ToPropertyKey coercion of the looked-up value used as the computed
key `{ [m[k]]: ... }`: `String(undefined)` is `"undefined"`, and a promise
stringifies to `"[object Promise]"`. -/
def jsKeyOf : Option JsDefault → String
  | none => "undefined"
  | some _ => "[object Promise]"

/-- The `Object.entries(...).reduce((m, [k, v]) => { return { [m[k]]: this.shortNamesToIds(v) } }, {})`
of `initDefaultRoles`: each iteration returns a fresh single-entry object
whose key is the stringification of `m[k]` (not `k`) and whose value is
the pending promise. -/
def buildRolesForAuth (entries : List (String × List String)) : JsObject :=
  entries.foldl
    (fun m kv => [(jsKeyOf (jsObjLookup m kv.fst), JsDefault.pending kv.snd)]) []

/-- What `data.roles` holds after the pre-insert hook: a plain id list, or
the promise object itself when the `rolesForAuth` lookup hit. -/
inductive RolesValue
  | idList (ids : List String)
  | promiseValue (shortNames : List String)
deriving DecidableEq, Repr

/-- `rolesForAuth[data.authType] || rolesforAll || []`: a hit yields the
stored (pending-promise) value; otherwise `rolesforAll`, an array and
hence truthy even when empty, so the final `[]` is unreachable. -/
def defaultFor (rolesForAuth : JsObject) (rolesforAll : List String)
    (authType : String) : RolesValue :=
  match jsObjLookup rolesForAuth authType with
  | some (JsDefault.pending names) => RolesValue.promiseValue names
  | none => RolesValue.idList rolesforAll

/-- The `users.preInsertHook.tap(data => ...)` callback installed by
`initDefaultRoles`: replace `data.roles` with the computed default when it
is absent or empty, leave it alone otherwise. -/
def preInsertTap (rolesForAuth : JsObject) (rolesforAll : List String)
    (dataRoles : Option (List String)) (authType : String) : RolesValue :=
  match dataRoles with
  | some l =>
    if l.isEmpty then defaultFor rolesForAuth rolesforAll authType
    else RolesValue.idList l
  | none => defaultFor rolesForAuth rolesforAll authType

/-! Concrete fixtures used for closed instances. -/

/-- The distinguished super role. -/
def superRole : Role := ⟨"super1", "superuser", ["*:*"], none⟩

/-- An ordinary role. -/
def adminRole : Role := ⟨"admin1", "admin", ["read:all"], none⟩

/-- A role collection holding the super role and an ordinary role. -/
def demoRolesDb : List Role := [superRole, adminRole]

/-- A principal whose sole role is the super role. -/
def superUser : User := ⟨"u-super", ["super1"]⟩

/-- A principal holding one ordinary role. -/
def adminUser : User := ⟨"u-admin", ["admin1"]⟩

/-- A principal with no roles. -/
def emptyUser : User := ⟨"u-empty", []⟩

/-- A principal holding the super role diluted by a second role. -/
def mixedUser : User := ⟨"u-mixed", ["super1", "admin1"]⟩

/-- The users collection of the fixtures. -/
def demoUsersDb : List User := [superUser, adminUser, emptyUser, mixedUser]

/-- The spec's three-role inheritance chain: `base(scopes=[a])`. -/
def demoBase : Role := ⟨"r1", "base", ["scope:a"], none⟩

/-- `mid(extends=base, scopes=[b])`. -/
def demoMid : Role := ⟨"r2", "mid", ["scope:b"], some "base"⟩

/-- `top(extends=mid, scopes=[c])`. -/
def demoTop : Role := ⟨"r3", "top", ["scope:c"], some "mid"⟩

/-- The chain fixture collection. -/
def demoChainRoles : List Role := [demoBase, demoMid, demoTop]

/-- A two-role chain repeating the same scope, to watch duplicates
survive. -/
def dupBase : Role := ⟨"d1", "dupbase", ["scope:a"], none⟩

/-- The child of `dupBase` with the same scope. -/
def dupTop : Role := ⟨"d2", "duptop", ["scope:a"], some "dupbase"⟩

/-- The duplicate-scope collection. -/
def dupRoles : List Role := [dupBase, dupTop]

/-- Half of a two-cycle in the `extends` graph. -/
def cycA : Role := ⟨"ca", "cyca", ["s:a"], some "cycb"⟩

/-- The other half of the two-cycle. -/
def cycB : Role := ⟨"cb", "cycb", ["s:b"], some "cyca"⟩

/-- The cyclic collection. -/
def cycRoles : List Role := [cycA, cycB]

/-- C2: `isTargetSuper(p)` is true iff the principal's role list is
exactly the one-element list holding the super role id; zero roles,
several roles (even including the super role), or a single other role all
yield false. -/
theorem c2_isTargetSuper_iff (rolesDb : List Role) (usersDb : List User)
    (uid : String) (u : User) (sid : String)
    (hu : findUserById usersDb uid = some u)
    (hs : getSuperRoleId rolesDb = Except.ok sid) :
    (isTargetSuper rolesDb usersDb uid = Except.ok true ↔ u.roles = [sid]) ∧
    (u.roles ≠ [sid] → isTargetSuper rolesDb usersDb uid = Except.ok false) := by
  unfold isTargetSuper
  rw [hu]
  rcases hr : u.roles with _ | ⟨rid, _ | ⟨b, t⟩⟩ <;> simp [hr, hs]

/-- Witness for C2 at the fixtures: the sole-super-role principal is a
super target, the zero-role / diluted / ordinary principals are not. -/
theorem c2_isTargetSuper_iff_witness :
    isTargetSuper demoRolesDb demoUsersDb "u-super" = Except.ok true ∧
    isTargetSuper demoRolesDb demoUsersDb "u-empty" = Except.ok false ∧
    isTargetSuper demoRolesDb demoUsersDb "u-mixed" = Except.ok false ∧
    isTargetSuper demoRolesDb demoUsersDb "u-admin" = Except.ok false :=
  ⟨(c2_isTargetSuper_iff demoRolesDb demoUsersDb "u-super" superUser "super1"
      (by decide) (by decide)).1.mpr (by decide),
   (c2_isTargetSuper_iff demoRolesDb demoUsersDb "u-empty" emptyUser "super1"
      (by decide) (by decide)).2 (by decide),
   (c2_isTargetSuper_iff demoRolesDb demoUsersDb "u-mixed" mixedUser "super1"
      (by decide) (by decide)).2 (by decide),
   (c2_isTargetSuper_iff demoRolesDb demoUsersDb "u-admin" adminUser "super1"
      (by decide) (by decide)).2 (by decide)⟩

/-- C6: the access-check guard allows every non-modifying request without
querying the target, rejects a modifying request whose target is a super
target, and allows a modifying request on any other target. -/
theorem c6_onCheckUserAccess_spec (rolesDb : List Role) (usersDb : List User) :
    (∀ qid, onCheckUserAccess rolesDb usersDb false qid = ⟨Except.ok true, false⟩) ∧
    (∀ qid, isTargetSuper rolesDb usersDb qid = Except.ok true →
        onCheckUserAccess rolesDb usersDb true qid
          = ⟨Except.error RolesError.unauthorised, true⟩) ∧
    (∀ qid, isTargetSuper rolesDb usersDb qid = Except.ok false →
        onCheckUserAccess rolesDb usersDb true qid = ⟨Except.ok true, true⟩) := by
  refine ⟨fun qid => rfl, fun qid h => ?_, fun qid h => ?_⟩ <;>
    simp [onCheckUserAccess, h]

/-- Witness for C6 at the fixtures. -/
theorem c6_onCheckUserAccess_spec_witness :
    onCheckUserAccess demoRolesDb demoUsersDb false "u-super" = ⟨Except.ok true, false⟩ ∧
    onCheckUserAccess demoRolesDb demoUsersDb true "u-super"
      = ⟨Except.error RolesError.unauthorised, true⟩ ∧
    onCheckUserAccess demoRolesDb demoUsersDb true "u-admin" = ⟨Except.ok true, true⟩ :=
  ⟨(c6_onCheckUserAccess_spec demoRolesDb demoUsersDb).1 "u-super",
   (c6_onCheckUserAccess_spec demoRolesDb demoUsersDb).2.1 "u-super" (by decide),
   (c6_onCheckUserAccess_spec demoRolesDb demoUsersDb).2.2 "u-admin" (by decide)⟩

/-- C5 (code behaviour at the failing input): the per-auth-type reduce
keys each iteration's fresh object by `String(m[k])` — `"undefined"` — and
stores the unawaited promise, so the configured type `"local"` maps to
nothing and a new `"local"` principal without roles receives the global
default list instead of its per-type list (an untouched non-empty `roles`
is still left alone). -/
theorem c5_perTypeDefaults_overwritten :
    buildRolesForAuth [("local", ["admin"])]
        = [("undefined", JsDefault.pending ["admin"])] ∧
    jsObjLookup (buildRolesForAuth [("local", ["admin"])]) "local" = none ∧
    preInsertTap (buildRolesForAuth [("local", ["admin"])]) ["id-authuser"] none "local"
        = RolesValue.idList ["id-authuser"] ∧
    preInsertTap (buildRolesForAuth [("local", ["admin"])]) ["id-authuser"]
        (some ["existing-role"]) "local" = RolesValue.idList ["existing-role"] := by
  decide

/-- An engaged roles-less DELETE by a non-super requester holding
`assign:roles`, aimed at an ordinary principal. -/
def bugReq : UpdateReq :=
  { method := "DELETE", paramsId := some "u-admin", bodyId := none,
    auth := ⟨false, ["assign:roles"], "u-req"⟩,
    apiData := some ⟨some false, none, "u-admin"⟩ }

/-- C1 (code behaviour at the failing input): on an engaged deletion that
carries no roles field, a non-super requester holding `assign:roles`
makes check two dereference `req.apiData.data.roles`, which is absent —
the handler throws a TypeError (logging nothing, disavowing nobody)
instead of letting the vacuous check pass and check three decide.  The
same request from a super requester sails through to the disavow call,
showing deletions are meant to flow past the checks. -/
theorem c1_delete_without_roles_throws_typeError :
    onUpdateRoles demoRolesDb demoUsersDb bugReq
      = ⟨Except.error RolesError.typeError, [], []⟩ ∧
    onUpdateRoles demoRolesDb demoUsersDb
        { bugReq with auth := ⟨true, [], "u-req"⟩ }
      = ⟨Except.ok (), [], [some "u-admin"]⟩ := by
  decide

/-- C8: once an engaged request passes the guard's checks — or its
requester is super and skips them — a non-creation request disavows the
target exactly once, identified by `params._id || body._id` (the route
parameter when present, the body id otherwise), and a POST never
disavows. -/
theorem c8_disavow_on_non_creation (rolesDb : List Role) (usersDb : List User)
    (req : UpdateReq) (ad : ApiData)
    (had : req.apiData = some ad)
    (hmod : ad.modifying = some false)
    (heng : req.method = "DELETE" ∨ ad.dataRoles.isSome = true)
    (hpass : req.auth.isSuper = true ∨
      (req.auth.isSuper = false ∧ req.auth.scopes.contains "assign:roles" = true ∧
        ∃ assigned sid, ad.dataRoles = some assigned ∧
          getSuperRoleId rolesDb = Except.ok sid ∧ assigned.contains sid = false ∧
          isTargetSuper rolesDb usersDb ad.queryId = Except.ok false)) :
    (req.method ≠ "POST" → onUpdateRoles rolesDb usersDb req
        = ⟨Except.ok (), [], [jsOrId req.paramsId req.bodyId]⟩) ∧
    (req.method = "POST" → onUpdateRoles rolesDb usersDb req
        = ⟨Except.ok (), [], []⟩) ∧
    (∀ s, req.paramsId = some s → s ≠ "" →
        jsOrId req.paramsId req.bodyId = some s) ∧
    (req.paramsId = none → jsOrId req.paramsId req.bodyId = req.bodyId) := by
  have hbool : (ad.modifying == some false
      && (req.method == "DELETE" || ad.dataRoles.isSome)) = true := by
    rcases heng with h | h <;> simp [hmod, h]
  refine ⟨fun hp => ?_, fun hp => ?_, fun s hs hne => ?_, fun hnone => ?_⟩
  · rcases hpass with hsup | ⟨hns, hsc, assigned, sid, hdr, hsid, hnin, hts⟩
    · simp [onUpdateRoles, had, hbool, hsup, disavowStep, hp]
    · have hmem : "assign:roles" ∈ req.auth.scopes := by simpa using hsc
      have hnotmem : sid ∉ assigned := by simpa using hnin
      simp [onUpdateRoles, had, hbool, hmod, hns, hmem, hdr, hsid, hnotmem, hts,
        disavowStep, hp]
  · rcases hpass with hsup | ⟨hns, hsc, assigned, sid, hdr, hsid, hnin, hts⟩
    · simp [onUpdateRoles, had, hbool, hsup, disavowStep, hp]
    · have hmem : "assign:roles" ∈ req.auth.scopes := by simpa using hsc
      have hnotmem : sid ∉ assigned := by simpa using hnin
      simp [onUpdateRoles, had, hbool, hmod, hns, hmem, hdr, hsid, hnotmem, hts,
        disavowStep, hp]
  · simp [jsOrId, jsTruthyString, hs, hne]
  · simp [jsOrId, jsTruthyString, hnone]

/-- An engaged DELETE from a super requester. -/
def passReqDel : UpdateReq :=
  { method := "DELETE", paramsId := some "u-admin", bodyId := none,
    auth := ⟨true, [], "u-req"⟩,
    apiData := some ⟨some false, some ["admin1"], "u-admin"⟩ }

/-- An engaged creation request from a super requester. -/
def passReqPost : UpdateReq :=
  { method := "POST", paramsId := none, bodyId := some "u-new",
    auth := ⟨true, [], "u-req"⟩,
    apiData := some ⟨some false, some ["admin1"], "u-new"⟩ }

/-- Witness for C8: the super DELETE disavows its target once via the
route parameter; the creation request never disavows. -/
theorem c8_disavow_on_non_creation_witness :
    onUpdateRoles demoRolesDb demoUsersDb passReqDel
      = ⟨Except.ok (), [], [jsOrId passReqDel.paramsId passReqDel.bodyId]⟩ ∧
    onUpdateRoles demoRolesDb demoUsersDb passReqPost
      = ⟨Except.ok (), [], []⟩ :=
  ⟨(c8_disavow_on_non_creation demoRolesDb demoUsersDb passReqDel
      ⟨some false, some ["admin1"], "u-admin"⟩ rfl rfl (Or.inl rfl)
      (Or.inl rfl)).1 (by decide),
   (c8_disavow_on_non_creation demoRolesDb demoUsersDb passReqPost
      ⟨some false, some ["admin1"], "u-new"⟩ rfl rfl
      (Or.inr rfl) (Or.inl rfl)).2.1 rfl⟩

/-- The only error a single resolution inside `shortNamesToIds` throws is
the missing-role one. -/
theorem resolveOne_error (db : List Role) (cache : RoleCache) (m : String)
    (e : RolesError) (h : (resolveOne db cache m).result = Except.error e) :
    e = RolesError.roleNotFound := by
  unfold resolveOne at h
  rcases hc : cacheLookup cache m with _ | r <;> rw [hc] at h
  · rcases hf : findRoleByShortName db m with _ | r <;> rw [hf] at h <;> simp at h
    exact h.symm
  · simp at h

/-- A rejected per-name resolution rejects the whole `Promise.all`. -/
theorem collect_error_of_mem (db : List Role) (cache : RoleCache) :
    ∀ (names : List String) (n : String), n ∈ names →
      (resolveOne db cache n).result = Except.error RolesError.roleNotFound →
      collectResults (names.map (fun m => (resolveOne db cache m).result))
        = Except.error RolesError.roleNotFound := by
  intro names
  induction names with
  | nil => intro n h; cases h
  | cons a as ih =>
    intro n hmem herr
    rcases List.mem_cons.mp hmem with rfl | hmem2
    · simp only [List.map_cons, herr, collectResults]
    · rcases hres : (resolveOne db cache a).result with e | s
      · have he := resolveOne_error db cache a e hres
        subst he
        simp only [List.map_cons, hres, collectResults]
      · simp only [List.map_cons, hres, collectResults, ih n hmem2 herr, Except.map]

/-- C7: every role lookup that yields no record fails, and the failure is
the caller's: a missing starting id fails `getScopesForRole` (for any
fuel), a short name matching no role (and not cached) rejects
`shortNamesToIds`, and `getSuperRoleId` fails when no role's scopes are
exactly `["*:*"]`. -/
theorem c7_roleNotFound_propagates :
    (∀ (db : List Role) (id : String) (fuel : Nat), findRoleById db id = none →
        getScopesForRole db id fuel = some (Except.error RolesError.roleNotFound)) ∧
    (∀ (db : List Role) (cache : RoleCache) (names : List String) (n : String),
        n ∈ names → cacheLookup cache n = none → findRoleByShortName db n = none →
        (shortNamesToIds db cache names).result
          = Except.error RolesError.roleNotFound) ∧
    (∀ db : List Role, (∀ r ∈ db, r.scopes ≠ ["*:*"]) →
        getSuperRoleId db = Except.error RolesError.roleNotFound) := by
  refine ⟨fun db id fuel h => ?_, fun db cache names n hmem hcache hfind => ?_,
    fun db h => ?_⟩
  · simp [getScopesForRole, h]
  · have herr : (resolveOne db cache n).result = Except.error RolesError.roleNotFound := by
      simp [resolveOne, hcache, hfind]
    simpa [shortNamesToIds] using collect_error_of_mem db cache names n hmem herr
  · have hnone : db.find? (fun r => r.scopes == ["*:*"]) = none :=
      List.find?_eq_none.mpr (fun r hr => by simpa using h r hr)
    simp [getSuperRoleId, hnone]

/-- Witness for C7: an unknown starting id, an unknown short name and a
collection without a super role each fail with the missing-role error. -/
theorem c7_roleNotFound_propagates_witness :
    getScopesForRole demoChainRoles "missing" 5
      = some (Except.error RolesError.roleNotFound) ∧
    (shortNamesToIds demoChainRoles [] ["ghost"]).result
      = Except.error RolesError.roleNotFound ∧
    getSuperRoleId demoChainRoles = Except.error RolesError.roleNotFound :=
  ⟨c7_roleNotFound_propagates.1 demoChainRoles "missing" 5 (by decide),
   c7_roleNotFound_propagates.2.1 demoChainRoles [] ["ghost"] "ghost" (by decide)
     (by decide) (by decide),
   c7_roleNotFound_propagates.2.2 demoChainRoles (by decide)⟩

/-- C10: the first resolution of a short name queries the store once and
writes the fetched record to the role cache; any later call resolving the
same name answers from the cache — no store query, the originally fetched
id — whatever the store now holds. -/
theorem c10_shortNamesToIds_memoizes (db1 db2 : List Role) (n : String) (r : Role)
    (h : findRoleByShortName db1 n = some r) :
    shortNamesToIds db1 [] [n] = ⟨Except.ok [r._id], [(n, r)], [n]⟩ ∧
    shortNamesToIds db2 [(n, r)] [n] = ⟨Except.ok [r._id], [(n, r)], []⟩ := by
  constructor
  · simp [shortNamesToIds, resolveOne, cacheLookup, collectResults, Except.map, h]
  · simp [shortNamesToIds, resolveOne, cacheLookup, collectResults, Except.map]

/-- Witness for C10: after `admin` is resolved once, a second call against
an *emptied* store still answers `admin1` from the cache and issues no
query. -/
theorem c10_shortNamesToIds_memoizes_witness :
    shortNamesToIds [adminRole] [] ["admin"]
      = ⟨Except.ok ["admin1"], [("admin", adminRole)], ["admin"]⟩ ∧
    shortNamesToIds [] [("admin", adminRole)] ["admin"]
      = ⟨Except.ok ["admin1"], [("admin", adminRole)], []⟩ :=
  c10_shortNamesToIds_memoizes [adminRole] [] "admin" adminRole (by decide)

/-- C4: reconciliation settles every definition (the batch never rejects):
an existing short name triggers exactly one full-document replace filtered
by the existing record's id, an unseen one exactly one insert, a
duplicate-key conflict logs nothing, and any other store error logs
exactly one warning naming the short name. -/
theorem c4_reconcile_settle_all (db : List Role) (oracle : RoleDef → StoreOutcome)
    (defs : List RoleDef) :
    (initConfigRoles db oracle defs).length = defs.length ∧
    (∀ (i : Nat) (hi : i < defs.length),
        (initConfigRoles db oracle defs).get ⟨i, by simpa [initConfigRoles] using hi⟩
          = reconcileOne db oracle (defs.get ⟨i, hi⟩)) ∧
    (∀ r doc, findRoleByShortName db r.shortName = some doc →
        (reconcileOne db oracle r).calls
          = [StoreCall.replaceCall collectionName doc._id r]) ∧
    (∀ r, findRoleByShortName db r.shortName = none →
        (reconcileOne db oracle r).calls = [StoreCall.insertCall r]) ∧
    (∀ r, oracle r = StoreOutcome.conflict →
        ∀ m, LogEvent.warnLog m ∉ (reconcileOne db oracle r).logs) ∧
    (∀ r msg, oracle r = StoreOutcome.failure msg →
        ∃ m pre post, (reconcileOne db oracle r).logs = [LogEvent.warnLog m] ∧
          m = pre ++ r.shortName ++ post) := by
  refine ⟨by simp [initConfigRoles], fun i hi => ?_, fun r doc h => ?_,
    fun r h => ?_, fun r h m => ?_, fun r msg h => ?_⟩
  · simp [initConfigRoles]
  · simp [reconcileOne, h]
  · simp [reconcileOne, h]
  · rcases hf : findRoleByShortName db r.shortName with _ | doc <;>
      simp [reconcileOne, hf, h]
  · rcases hf : findRoleByShortName db r.shortName with _ | doc
    · refine ⟨"failed to add \x27" ++ r.shortName ++ "\x27 role, " ++ msg,
        "failed to add \x27", "\x27 role, " ++ msg, ?_, ?_⟩
      · simp [reconcileOne, hf, h]
      · rw [String.append_assoc]
    · refine ⟨"failed to update \x27" ++ r.shortName ++ "\x27 role, " ++ msg,
        "failed to update \x27", "\x27 role, " ++ msg, ?_, ?_⟩
      · simp [reconcileOne, hf, h]
      · rw [String.append_assoc]

/-- A store oracle for the C4 witness: the `admin` definition hits a
non-conflict failure, `superuser` a duplicate-key conflict, everything
else succeeds. -/
def demoOracle : RoleDef → StoreOutcome := fun r =>
  if r.shortName == "admin" then StoreOutcome.failure "boom"
  else if r.shortName == "superuser" then StoreOutcome.conflict
  else StoreOutcome.success

/-- A definition whose short name already exists in the fixtures. -/
def adminDef : RoleDef := ⟨"admin", "Admin", ["read:all"], none⟩

/-- A definition with an unseen short name. -/
def newDef : RoleDef := ⟨"newrole", "New Role", [], none⟩

/-- A definition whose short name exists and whose mutation conflicts. -/
def superDef : RoleDef := ⟨"superuser", "Super User", ["*:*"], none⟩

/-- Witness for C4 at the fixtures. -/
theorem c4_reconcile_settle_all_witness :
    (initConfigRoles demoRolesDb demoOracle [adminDef, newDef, superDef]).length
      = ([adminDef, newDef, superDef] : List RoleDef).length ∧
    (reconcileOne demoRolesDb demoOracle adminDef).calls
      = [StoreCall.replaceCall collectionName adminRole._id adminDef] ∧
    (reconcileOne demoRolesDb demoOracle newDef).calls
      = [StoreCall.insertCall newDef] ∧
    (∀ m, LogEvent.warnLog m ∉ (reconcileOne demoRolesDb demoOracle superDef).logs) ∧
    (∃ m pre post, (reconcileOne demoRolesDb demoOracle adminDef).logs
        = [LogEvent.warnLog m] ∧ m = pre ++ adminDef.shortName ++ post) :=
  ⟨(c4_reconcile_settle_all demoRolesDb demoOracle [adminDef, newDef, superDef]).1,
   (c4_reconcile_settle_all demoRolesDb demoOracle [adminDef, newDef, superDef]).2.2.1
     adminDef adminRole (by decide),
   (c4_reconcile_settle_all demoRolesDb demoOracle [adminDef, newDef, superDef]).2.2.2.1
     newDef (by decide),
   fun m => (c4_reconcile_settle_all demoRolesDb demoOracle
     [adminDef, newDef, superDef]).2.2.2.2.1 superDef (by decide) m,
   (c4_reconcile_settle_all demoRolesDb demoOracle [adminDef, newDef, superDef]).2.2.2.2.2
     adminDef "boom" (by decide)⟩

/-- The list of roles the walk visits, child first, under the same fuel
discipline as `walkChain`. -/
def chainList (allRoles : List Role) : Nat → Role → Option (List Role)
  | 0, _ => none
  | Nat.succ f, role =>
    match nextRole allRoles role with
    | none => some [role]
    | some parent => (chainList allRoles f parent).map (role :: ·)

/-- A terminating walk returns precisely the concatenation, child to
root, of the scope lists of the visited roles. -/
theorem walkChain_eq_flatten (allRoles : List Role) :
    ∀ (fuel : Nat) (role : Role) (chain : List Role),
      chainList allRoles fuel role = some chain →
      walkChain allRoles fuel role = some (chain.map Role.scopes).flatten := by
  intro fuel
  induction fuel with
  | zero => intro role chain h; simp [chainList] at h
  | succ f ih =>
    intro role chain h
    unfold chainList at h
    unfold walkChain
    rcases hn : nextRole allRoles role with _ | parent <;> rw [hn] at h
    · simp at h
      subst h
      simp
    · simp at h
      rcases h with ⟨c, hc, rfl⟩
      dsimp only
      rw [ih parent c hc]
      simp

/-- C3: whenever the inheritance walk terminates, its result is the
concatenation — child-to-root, duplicates kept — of each visited role's
own scopes; in particular the spec's three-role chain resolves to
`[c, b, a]`, and a repeated scope appears twice. -/
theorem c3_resolveScopes_concatenates :
    (∀ (allRoles : List Role) (fuel : Nat) (role : Role) (chain : List Role),
        chainList allRoles fuel role = some chain →
        walkChain allRoles fuel role = some (chain.map Role.scopes).flatten) ∧
    getScopesForRole demoChainRoles "r3" 3
      = some (Except.ok ["scope:c", "scope:b", "scope:a"]) ∧
    getScopesForRole dupRoles "d2" 2 = some (Except.ok ["scope:a", "scope:a"]) :=
  ⟨walkChain_eq_flatten, by decide, by decide⟩

/-- Witness for C3: the walk on the spec's chain, driven through the
general conjunct at the concrete chain. -/
theorem c3_resolveScopes_concatenates_witness :
    walkChain demoChainRoles 3 demoTop
      = some (([demoTop, demoMid, demoBase].map Role.scopes).flatten) :=
  c3_resolveScopes_concatenates.1 demoChainRoles 3 demoTop
    [demoTop, demoMid, demoBase] (by decide)

/-- The loop's stop condition closed under steps: the chain of `extends`
hops from this role eventually reaches a role with no parent (no
`extends` value, or no role carrying that short name). -/
inductive ChainEnds (allRoles : List Role) : Role → Prop
  | last {role : Role} : nextRole allRoles role = none → ChainEnds allRoles role
  | step {role parent : Role} : nextRole allRoles role = some parent →
      ChainEnds allRoles parent → ChainEnds allRoles role

/-- An ending chain gives the walk enough fuel to finish. -/
theorem walkChain_isSome_of_chainEnds (allRoles : List Role) (role : Role)
    (h : ChainEnds allRoles role) :
    ∃ fuel, (walkChain allRoles fuel role).isSome = true := by
  induction h with
  | last hn => exact ⟨1, by simp [walkChain, hn]⟩
  | step hn _ ih =>
    rcases ih with ⟨f, hf⟩
    exact ⟨f + 1, by simp [walkChain, hn, Option.isSome_map, hf]⟩

/-- A walk that finishes only does so along an ending chain. -/
theorem chainEnds_of_walkChain_isSome (allRoles : List Role) :
    ∀ (fuel : Nat) (role : Role), (walkChain allRoles fuel role).isSome = true →
      ChainEnds allRoles role := by
  intro fuel
  induction fuel with
  | zero => intro role h; simp [walkChain] at h
  | succ f ih =>
    intro role h
    unfold walkChain at h
    rcases hn : nextRole allRoles role with _ | parent <;> rw [hn] at h
    · exact ChainEnds.last hn
    · dsimp only at h
      simp only [Option.isSome_map'] at h
      exact ChainEnds.step hn (ih parent h)

/-- On the two-cycle the walk never finishes, from either entry point. -/
theorem cyc_walk_none : ∀ fuel : Nat,
    walkChain cycRoles fuel cycA = none ∧ walkChain cycRoles fuel cycB = none := by
  have hA : nextRole cycRoles cycA = some cycB := by decide
  have hB : nextRole cycRoles cycB = some cycA := by decide
  intro fuel
  induction fuel with
  | zero => exact ⟨rfl, rfl⟩
  | succ f ih =>
    constructor
    · show walkChain cycRoles (f + 1) cycA = none
      unfold walkChain
      rw [hA]
      dsimp only
      rw [ih.2]
      rfl
    · show walkChain cycRoles (f + 1) cycB = none
      unfold walkChain
      rw [hB]
      dsimp only
      rw [ih.1]
      rfl

/-- C9: the walk stops exactly along the source's stop condition — the
chain from the start reaches a role whose `extends` is absent or matches
no role — with no cycle detection: it terminates (for some fuel) iff that
chain ends, and on the concrete two-cycle it never terminates, whatever
the fuel. -/
theorem c9_walk_terminates_iff :
    (∀ (allRoles : List Role) (role : Role),
        (∃ fuel, (walkChain allRoles fuel role).isSome = true)
          ↔ ChainEnds allRoles role) ∧
    (∀ fuel, walkChain cycRoles fuel cycA = none) :=
  ⟨fun allRoles role =>
    ⟨fun h => chainEnds_of_walkChain_isSome allRoles h.choose role h.choose_spec,
     walkChain_isSome_of_chainEnds allRoles role⟩,
   fun fuel => (cyc_walk_none fuel).1⟩

/-- Witness for C9: the acyclic demo chain terminates (its chain ends),
and the cycle is still unfinished after nine steps of fuel. -/
theorem c9_walk_terminates_iff_witness :
    ChainEnds demoChainRoles demoTop ∧ walkChain cycRoles 9 cycA = none :=
  ⟨(c9_walk_terminates_iff.1 demoChainRoles demoTop).mp ⟨3, by decide⟩,
   c9_walk_terminates_iff.2 9⟩

end AdaptRoles
